import Mathlib

/-!
Verification of the panel-plots locator module (`panels/_locators.py`).

The module computes rectangular placements of a grid of equally sized
panels inside a figure canvas.  All lengths are modelled as rationals
(the Python source uses floats but every operation involved is exact
field arithmetic, so ℚ is a faithful exact model).  Fallible
constructors return `Except String`, the error string being the message
of the raised `ValueError`; the `warnings.warn` side effect of
`panel_size` is modelled by additionally returning the list of warning
messages emitted during the call.
-/

namespace Panels

/-- Error and warning messages taken verbatim from the source. -/
def hsepLenMsg : String :=
  "If hsep is a sequence, it must have one fewer value than the number of columns"

/-- Message raised for a wrong-length vsep sequence. -/
def vsepLenMsg : String :=
  "If vsep is a sequence, it must have one fewer value than the number of rows"

/-- Message raised when panel_position_iterator receives an unknown order. -/
def orderMsg : String :=
  "the order keyword must be either \"row\" or \"column\""

/-- Message raised when both figwidth and figheight keywords are absent. -/
def noDimsMsg : String :=
  "one or both of the \"figwidth\" and \"figheight\" keywords must be used"

/-- Message raised in the both-dimensions branch of panel_size when a
computed panel dimension is nonpositive.  The source concatenates
two string literals without a separating space, producing the literal
text with the run "tolocate"; we reproduce it verbatim. -/
def tooSmallMsg : String :=
  "the specified dimensions are not large enough tolocate panels with the desired separation and padding"

/-- Message raised in the figheight-only branch of panel_size. -/
def notTallMsg : String :=
  "the specified figure height is not tall enough to locate panels with the desired separation and padding"

/-- Message raised in the figwidth-only branch of panel_size. -/
def notWideMsg : String :=
  "the specified figure width is not wide enough to locate panels with the desired separation and padding"

/-- Warning message emitted when panelratio is supplied alongside both
figure dimensions. -/
def ratioWarnMsg : String :=
  "the \"panelratio\" keyword is ignored when both the \"figwidth\" and \"figheight\" keywords are used"

/-- The string literal "row". -/
def rowOrder : String := "row"

/-- The string literal "column". -/
def columnOrder : String := "column"

/-- The string literal "mm", the default units keyword. -/
def mm : String := "mm"

/-- A separation argument: the Python parameters hsep and vsep accept
either a single scalar or a sequence (the source discriminates with
`isinstance(x, collections.abc.Sequence)`). -/
inductive SepArg where
  | scalar (v : ℚ)
  | seq (vs : List ℚ)
deriving DecidableEq

/-- Normalization of a separation argument, shared by the constructor of
PanelSizeLocator and by panel_size (both sites contain the identical
code).  A sequence must have length `count - 1` (checked with integer
arithmetic, as in Python); a scalar is broadcast, `[x] * (count - 1)`. -/
def normalizeSep (arg : SepArg) (count : ℕ) (msg : String) : Except String (List ℚ) :=
  match arg with
  | .seq vs => if (vs.length : ℤ) = (count : ℤ) - 1 then .ok vs else .error msg
  | .scalar v => .ok (List.replicate (count - 1) v)

/-- The state of a PanelSizeLocator after a successful `__init__`: the
fields assigned by the constructor.  figwidth, figheight and the
normalized panel fractions are memoized pure functions of these fields
and are modelled as derived definitions below. -/
structure PanelSizeLocator where
  rows : ℕ
  columns : ℕ
  panelwidth : ℚ
  panelheight : ℚ
  hsep : List ℚ
  vsep : List ℚ
  padleft : ℚ
  padright : ℚ
  padtop : ℚ
  padbottom : ℚ
  units : String
deriving DecidableEq

namespace PanelSizeLocator

/-- Constructor `PanelSizeLocator.__init__`: validates/broadcasts hsep and vsep
(raising ValueError on a wrong-length sequence) and records the fields. -/
def init (rows columns : ℕ) (panelwidth panelheight : ℚ)
    (hsep vsep : SepArg) (padleft padright padtop padbottom : ℚ)
    (units : String) : Except String PanelSizeLocator :=
  match normalizeSep hsep columns hsepLenMsg with
  | .error e => .error e
  | .ok hs =>
    match normalizeSep vsep rows vsepLenMsg with
    | .error e => .error e
    | .ok vs =>
      .ok { rows := rows, columns := columns, panelwidth := panelwidth,
            panelheight := panelheight, hsep := hs, vsep := vs,
            padleft := padleft, padright := padright, padtop := padtop,
            padbottom := padbottom, units := units }

/-- Field `self.figwidth`, computed in `__init__`. -/
def figwidth (L : PanelSizeLocator) : ℚ :=
  L.padleft + L.columns * L.panelwidth + L.hsep.sum + L.padright

/-- Field `self.figheight`, computed in `__init__`. -/
def figheight (L : PanelSizeLocator) : ℚ :=
  L.padtop + L.rows * L.panelheight + L.vsep.sum + L.padbottom

/-- Field `self.panelwidth_fig`, computed in `__init__`. -/
def panelwidth_fig (L : PanelSizeLocator) : ℚ := L.panelwidth / L.figwidth

/-- Field `self.panelheight_fig`, computed in `__init__`. -/
def panelheight_fig (L : PanelSizeLocator) : ℚ := L.panelheight / L.figheight

/-- Method `panel_position(row, column)`: the matplotlib-style
(x, y, width, height) position of a panel in figure coordinates.
The Python slices `self.hsep[:column]` and `self.vsep[:row]` are
`List.take`, which likewise clamps when the index exceeds the length;
no bounds check is performed on row or column. -/
def panel_position (L : PanelSizeLocator) (row column : ℕ) : ℚ × ℚ × ℚ × ℚ :=
  let x := L.padleft + L.panelwidth * column + (L.hsep.take column).sum
  let y := L.figheight - L.padtop - L.panelheight * (row + 1) - (L.vsep.take row).sum
  (x / L.figwidth, y / L.figheight, L.panelwidth_fig, L.panelheight_fig)

/-- Index pairs (row, column) enumerated by
`product(range(rows), range(columns))` — row-major order. -/
def rowMajorIndices (rows columns : ℕ) : List (ℕ × ℕ) :=
  (List.range rows).flatMap fun r => (List.range columns).map fun c => (r, c)

/-- Index pairs (row, column) read off `product(range(columns), range(rows))`
with the components swapped back — column-major order. -/
def colMajorIndices (rows columns : ℕ) : List (ℕ × ℕ) :=
  (List.range columns).flatMap fun c => (List.range rows).map fun r => (r, c)

/-- Method `panel_position_iterator(order)`: the finite sequence of panel
positions in the requested order, or ValueError for an unknown order.
The Python generator is lazy but pure; its list of produced values is
the faithful observable content. -/
def panel_position_iterator (L : PanelSizeLocator) (order : String) :
    Except String (List (ℚ × ℚ × ℚ × ℚ)) :=
  if order = rowOrder then
    .ok ((rowMajorIndices L.rows L.columns).map fun p => L.panel_position p.1 p.2)
  else if order = columnOrder then
    .ok ((colMajorIndices L.rows L.columns).map fun p => L.panel_position p.1 p.2)
  else
    .error orderMsg

end PanelSizeLocator

/-- Python `panelratio or 1.`: both `None` and `0` are falsy, so an
absent or zero panelratio yields 1. -/
def ratioOr1 (panelratio : Option ℚ) : ℚ :=
  match panelratio with
  | none => 1
  | some v => if v = 0 then 1 else v

/-- Static method `FigureSizeLocator.panel_size`: determine panel sizes for a fixed
figure size.  Returns the list of warning messages emitted (via
`warnings.warn`) alongside the result or the raised ValueError. -/
def panel_size (rows columns : ℕ) (figwidth figheight panelratio : Option ℚ)
    (hsep vsep : SepArg) (padleft padright padtop padbottom : ℚ) :
    List String × Except String (ℚ × ℚ) :=
  if figwidth = none ∧ figheight = none then
    ([], .error noDimsMsg)
  else
    match normalizeSep hsep columns hsepLenMsg with
    | .error e => ([], .error e)
    | .ok hs =>
      match normalizeSep vsep rows vsepLenMsg with
      | .error e => ([], .error e)
      | .ok vs =>
        match figwidth, figheight with
        | some fw, some fh =>
          -- Both width and height prescribed; any panelratio is ignored
          -- with a warning.
          let warns := match panelratio with
            | some _ => [ratioWarnMsg]
            | none => []
          let panelwidth := (fw - hs.sum - padleft - padright) / (columns : ℚ)
          let panelheight := (fh - vs.sum - padtop - padbottom) / (rows : ℚ)
          if panelwidth ≤ 0 ∨ panelheight ≤ 0 then
            (warns, .error tooSmallMsg)
          else
            (warns, .ok (panelwidth, panelheight))
        | none, some fh =>
          -- Only the figure height prescribed.
          let panelheight := (fh - vs.sum - padtop - padbottom) / (rows : ℚ)
          if panelheight ≤ 0 then
            ([], .error notTallMsg)
          else
            ([], .ok (panelheight * ratioOr1 panelratio, panelheight))
        | some fw, none =>
          -- Only the figure width prescribed.
          let panelwidth := (fw - hs.sum - padleft - padright) / (columns : ℚ)
          if panelwidth ≤ 0 then
            ([], .error notWideMsg)
          else
            ([], .ok (panelwidth, panelwidth / ratioOr1 panelratio))
        | none, none =>
          -- Unreachable: excluded by the guard at the top; the source
          -- raises there before reaching this point.
          ([], .error noDimsMsg)

/-- Constructor `FigureSizeLocator.__init__`: computes the panel size fitting the
figure size specification, then calls the PanelSizeLocator constructor
with this panel size and all other inputs unchanged.  The warnings
emitted by panel_size are propagated. -/
def FigureSizeLocator.init (rows columns : ℕ)
    (figwidth figheight panelratio : Option ℚ) (hsep vsep : SepArg)
    (padleft padright padtop padbottom : ℚ) (units : String) :
    List String × Except String PanelSizeLocator :=
  match panel_size rows columns figwidth figheight panelratio hsep vsep
      padleft padright padtop padbottom with
  | (ws, .error e) => (ws, .error e)
  | (ws, .ok (pw, ph)) =>
    (ws, PanelSizeLocator.init rows columns pw ph hsep vsep
      padleft padright padtop padbottom units)

/-- The locator of the worked example: rows=2, columns=3, panelwidth=10,
panelheight=20, hsep=1 (broadcast), vsep=2 (broadcast), all paddings 5.
This is the state produced by the corresponding `PanelSizeLocator.init`. -/
def sampleLocator : PanelSizeLocator :=
  { rows := 2, columns := 3, panelwidth := 10, panelheight := 20,
    hsep := [1, 1], vsep := [2],
    padleft := 5, padright := 5, padtop := 5, padbottom := 5, units := mm }

/-- C1: for every PanelSizeLocator and every in-range 0-indexed pair
(row, column), panel_position returns the rectangle with
x = (padleft + panelwidth·column + sum of the first column entries of
hsep) / figwidth and
y = (figheight − padtop − panelheight·(row+1) − sum of the first row
entries of vsep) / figheight, with width and height the panel size
fractions — the vertical formula measures down from the figure height,
so row 0 is at the top under the bottom-left-origin convention. -/
theorem C1_panel_position_formula (L : PanelSizeLocator) (row column : ℕ)
    (hrow : row < L.rows) (hcol : column < L.columns) :
    L.panel_position row column =
      ((L.padleft + L.panelwidth * column + (L.hsep.take column).sum) / L.figwidth,
       (L.figheight - L.padtop - L.panelheight * (row + 1) - (L.vsep.take row).sum) / L.figheight,
       L.panelwidth / L.figwidth,
       L.panelheight / L.figheight) := rfl

/-- Witness for C1 at the sample locator, row 0, column 1. -/
theorem C1_panel_position_formula_witness :
    sampleLocator.panel_position 0 1 =
      ((sampleLocator.padleft + sampleLocator.panelwidth * (1 : ℕ) +
          (sampleLocator.hsep.take 1).sum) / sampleLocator.figwidth,
       (sampleLocator.figheight - sampleLocator.padtop -
          sampleLocator.panelheight * ((0 : ℕ) + 1) - (sampleLocator.vsep.take 0).sum) /
         sampleLocator.figheight,
       sampleLocator.panelwidth / sampleLocator.figwidth,
       sampleLocator.panelheight / sampleLocator.figheight) :=
  C1_panel_position_formula sampleLocator 0 1 (by decide) (by decide)

/-- C2: the figure size computed at construction satisfies
figwidth = padleft + columns·panelwidth + sum(hsep) + padright and
figheight = padtop + rows·panelheight + sum(vsep) + padbottom; for
rows=2, columns=3, panelwidth=10, panelheight=20, hsep=1, vsep=2 and all
paddings 5 the constructor succeeds and figwidth = 42, figheight = 52. -/
theorem C2_figure_size :
    (∀ L : PanelSizeLocator,
      L.figwidth = L.padleft + L.columns * L.panelwidth + L.hsep.sum + L.padright ∧
      L.figheight = L.padtop + L.rows * L.panelheight + L.vsep.sum + L.padbottom) ∧
    PanelSizeLocator.init 2 3 10 20 (SepArg.scalar 1) (SepArg.scalar 2) 5 5 5 5 mm =
      Except.ok sampleLocator ∧
    sampleLocator.figwidth = 42 ∧ sampleLocator.figheight = 52 := by
  refine ⟨fun L => ⟨rfl, rfl⟩, rfl, ?_, ?_⟩
  · norm_num [PanelSizeLocator.figwidth, sampleLocator]
  · norm_num [PanelSizeLocator.figheight, sampleLocator]

/-- C3: a FigureSizeLocator built with figwidth=42, figheight=52,
rows=2, columns=3, hsep=1, vsep=2 and all paddings 5 derives the panel
size (10, 20) exactly, its construction result coincides with that of
the corresponding PanelSizeLocator, and consequently its panel_position
agrees with the PanelSizeLocator's at every (row, column). -/
theorem C3_figure_size_locator_equiv :
    (panel_size 2 3 (some 42) (some 52) none (SepArg.scalar 1) (SepArg.scalar 2)
        5 5 5 5).2 = Except.ok (10, 20) ∧
    (FigureSizeLocator.init 2 3 (some 42) (some 52) none (SepArg.scalar 1)
        (SepArg.scalar 2) 5 5 5 5 mm).2 =
      PanelSizeLocator.init 2 3 10 20 (SepArg.scalar 1) (SepArg.scalar 2) 5 5 5 5 mm ∧
    ∀ row column : ℕ,
      ((FigureSizeLocator.init 2 3 (some 42) (some 52) none (SepArg.scalar 1)
          (SepArg.scalar 2) 5 5 5 5 mm).2).map (fun L => L.panel_position row column) =
        (PanelSizeLocator.init 2 3 10 20 (SepArg.scalar 1) (SepArg.scalar 2)
          5 5 5 5 mm).map (fun L => L.panel_position row column) := by
  have hps : panel_size 2 3 (some 42) (some 52) none (SepArg.scalar 1) (SepArg.scalar 2)
      5 5 5 5 = ([], Except.ok (10, 20)) := by
    simp [panel_size, normalizeSep]
    norm_num
  have hinit : (FigureSizeLocator.init 2 3 (some 42) (some 52) none (SepArg.scalar 1)
      (SepArg.scalar 2) 5 5 5 5 mm).2 =
      PanelSizeLocator.init 2 3 10 20 (SepArg.scalar 1) (SepArg.scalar 2) 5 5 5 5 mm := by
    simp [FigureSizeLocator.init, hps]
  exact ⟨by rw [hps], hinit, fun row column => by rw [hinit]⟩

namespace PanelSizeLocator

/-- The row-major index list contains exactly the in-range pairs. -/
theorem mem_rowMajorIndices {m n r c : ℕ} :
    (r, c) ∈ rowMajorIndices m n ↔ r < m ∧ c < n := by
  simp [rowMajorIndices, Prod.ext_iff, eq_comm]

/-- The column-major index list contains exactly the in-range pairs. -/
theorem mem_colMajorIndices {m n r c : ℕ} :
    (r, c) ∈ colMajorIndices m n ↔ r < m ∧ c < n := by
  simp only [colMajorIndices, List.mem_flatMap, List.mem_map, List.mem_range, Prod.ext_iff]
  constructor
  · rintro ⟨a, ha, b, hb, hr, hc⟩
    subst hr; subst hc; exact ⟨hb, ha⟩
  · rintro ⟨hr, hc⟩
    exact ⟨c, hc, r, hr, rfl, rfl⟩

/-- The row-major index list has no duplicates. -/
theorem rowMajorIndices_nodup (m n : ℕ) : (rowMajorIndices m n).Nodup := by
  refine List.nodup_flatMap.2 ⟨fun r _ => ?_, ?_⟩
  · exact (List.nodup_range n).map fun c1 c2 h => by simpa using h
  · refine (List.pairwise_lt_range m).imp ?_
    intro r1 r2 hlt x hx1 hx2
    simp only [List.mem_map, List.mem_range] at hx1 hx2
    obtain ⟨c1, -, rfl⟩ := hx1
    obtain ⟨c2, -, h2⟩ := hx2
    exact absurd (congrArg Prod.fst h2) (by simpa using hlt.ne')

/-- The column-major index list has no duplicates. -/
theorem colMajorIndices_nodup (m n : ℕ) : (colMajorIndices m n).Nodup := by
  refine List.nodup_flatMap.2 ⟨fun c _ => ?_, ?_⟩
  · exact (List.nodup_range m).map fun r1 r2 h => by simpa using h
  · refine (List.pairwise_lt_range n).imp ?_
    intro c1 c2 hlt x hx1 hx2
    simp only [List.mem_map, List.mem_range] at hx1 hx2
    obtain ⟨r1, -, rfl⟩ := hx1
    obtain ⟨r2, -, h2⟩ := hx2
    exact absurd (congrArg Prod.snd h2) (by simpa using hlt.ne')

end PanelSizeLocator

/-- C5: panel_position_iterator enumerates, without duplication, the
panel positions of exactly the in-range (row, column) pairs: with order
"row" it maps panel_position over the row-major enumeration (rows
ascending, inner columns ascending) and with order "column" over the
column-major one; the underlying index enumerations are duplicate-free
and contain precisely the pairs with row < rows and column < columns.
On a 2×3 grid the two orders yield exactly the six positions for
(0,0),(0,1),(0,2),(1,0),(1,1),(1,2) and
(0,0),(1,0),(0,1),(1,1),(0,2),(1,2) respectively. -/
theorem C5_iterator_coverage_order (L : PanelSizeLocator) :
    L.panel_position_iterator rowOrder =
      Except.ok ((PanelSizeLocator.rowMajorIndices L.rows L.columns).map
        fun p => L.panel_position p.1 p.2) ∧
    L.panel_position_iterator columnOrder =
      Except.ok ((PanelSizeLocator.colMajorIndices L.rows L.columns).map
        fun p => L.panel_position p.1 p.2) ∧
    (PanelSizeLocator.rowMajorIndices L.rows L.columns).Nodup ∧
    (PanelSizeLocator.colMajorIndices L.rows L.columns).Nodup ∧
    (∀ r c : ℕ, (r, c) ∈ PanelSizeLocator.rowMajorIndices L.rows L.columns ↔
      r < L.rows ∧ c < L.columns) ∧
    (∀ r c : ℕ, (r, c) ∈ PanelSizeLocator.colMajorIndices L.rows L.columns ↔
      r < L.rows ∧ c < L.columns) ∧
    (L.rows = 2 → L.columns = 3 →
      L.panel_position_iterator rowOrder =
        Except.ok [L.panel_position 0 0, L.panel_position 0 1, L.panel_position 0 2,
          L.panel_position 1 0, L.panel_position 1 1, L.panel_position 1 2] ∧
      L.panel_position_iterator columnOrder =
        Except.ok [L.panel_position 0 0, L.panel_position 1 0, L.panel_position 0 1,
          L.panel_position 1 1, L.panel_position 0 2, L.panel_position 1 2]) := by
  have hrowEq : L.panel_position_iterator rowOrder =
      Except.ok ((PanelSizeLocator.rowMajorIndices L.rows L.columns).map
        fun p => L.panel_position p.1 p.2) := rfl
  have hcolEq : L.panel_position_iterator columnOrder =
      Except.ok ((PanelSizeLocator.colMajorIndices L.rows L.columns).map
        fun p => L.panel_position p.1 p.2) := rfl
  refine ⟨hrowEq, hcolEq, PanelSizeLocator.rowMajorIndices_nodup _ _,
    PanelSizeLocator.colMajorIndices_nodup _ _,
    fun r c => PanelSizeLocator.mem_rowMajorIndices,
    fun r c => PanelSizeLocator.mem_colMajorIndices, fun h2 h3 => ⟨?_, ?_⟩⟩
  · rw [hrowEq, h2, h3]
    rfl
  · rw [hcolEq, h2, h3]
    rfl

/-- Witness for C5 at the sample 2×3 locator: both concrete
enumeration orders. -/
theorem C5_iterator_coverage_order_witness :
    sampleLocator.panel_position_iterator rowOrder =
      Except.ok [sampleLocator.panel_position 0 0, sampleLocator.panel_position 0 1,
        sampleLocator.panel_position 0 2, sampleLocator.panel_position 1 0,
        sampleLocator.panel_position 1 1, sampleLocator.panel_position 1 2] ∧
    sampleLocator.panel_position_iterator columnOrder =
      Except.ok [sampleLocator.panel_position 0 0, sampleLocator.panel_position 1 0,
        sampleLocator.panel_position 0 1, sampleLocator.panel_position 1 1,
        sampleLocator.panel_position 0 2, sampleLocator.panel_position 1 2] :=
  (C5_iterator_coverage_order sampleLocator).2.2.2.2.2.2 rfl rfl

/-- C9: panel_position performs no bounds checking — for every locator
and all natural row and column indices, in range or not, it totally
returns the rectangle given by the same formulas (the list slices, like
Python slices, clamp past the end of the separation lists). -/
theorem C9_no_bounds_check (L : PanelSizeLocator) (row column : ℕ) :
    L.panel_position row column =
      ((L.padleft + L.panelwidth * column + (L.hsep.take column).sum) / L.figwidth,
       (L.figheight - L.padtop - L.panelheight * (row + 1) - (L.vsep.take row).sum) / L.figheight,
       L.panelwidth / L.figwidth,
       L.panelheight / L.figheight) := rfl

/-- C6: an explicit hsep (resp. vsep) sequence whose length differs
from columns−1 (resp. rows−1) makes construction fail with the
corresponding ValueError, while a scalar separation is broadcast to a
sequence of exactly that length; in particular columns=4 with
hsep=[1,2] fails, both for PanelSizeLocator and for FigureSizeLocator. -/
theorem C6_sep_length_validation :
    (∀ (rows columns : ℕ) (pw ph : ℚ) (hs : List ℚ) (vsep : SepArg)
        (pl pr2 pt pb : ℚ) (u : String),
      (hs.length : ℤ) ≠ (columns : ℤ) - 1 →
      PanelSizeLocator.init rows columns pw ph (SepArg.seq hs) vsep pl pr2 pt pb u =
        Except.error hsepLenMsg) ∧
    (∀ (rows columns : ℕ) (pw ph : ℚ) (hsep : SepArg) (vs : List ℚ)
        (pl pr2 pt pb : ℚ) (u : String) (hsList : List ℚ),
      normalizeSep hsep columns hsepLenMsg = Except.ok hsList →
      (vs.length : ℤ) ≠ (rows : ℤ) - 1 →
      PanelSizeLocator.init rows columns pw ph hsep (SepArg.seq vs) pl pr2 pt pb u =
        Except.error vsepLenMsg) ∧
    (∀ (rows columns : ℕ) (pw ph v w : ℚ) (pl pr2 pt pb : ℚ) (u : String),
      PanelSizeLocator.init rows columns pw ph (SepArg.scalar v) (SepArg.scalar w)
          pl pr2 pt pb u =
        Except.ok
          { rows := rows, columns := columns, panelwidth := pw, panelheight := ph,
            hsep := List.replicate (columns - 1) v, vsep := List.replicate (rows - 1) w,
            padleft := pl, padright := pr2, padtop := pt, padbottom := pb, units := u }) ∧
    PanelSizeLocator.init 1 4 1 1 (SepArg.seq [1, 2]) (SepArg.scalar 0) 0 0 0 0 mm =
      Except.error hsepLenMsg ∧
    (FigureSizeLocator.init 1 4 (some 10) none none (SepArg.seq [1, 2]) (SepArg.scalar 0)
        0 0 0 0 mm).2 = Except.error hsepLenMsg := by
  refine ⟨?_, ?_, fun rows columns pw ph v w pl pr2 pt pb u => rfl, ?_, ?_⟩
  · intro rows columns pw ph hs vsep pl pr2 pt pb u h
    simp [PanelSizeLocator.init, normalizeSep, h]
  · intro rows columns pw ph hsep vs pl pr2 pt pb u hsList hok h
    simp only [PanelSizeLocator.init]
    rw [hok]
    simp [normalizeSep, h]
  · norm_num [PanelSizeLocator.init, normalizeSep]
  · simp [FigureSizeLocator.init, panel_size, normalizeSep]

/-- Witness for C6: a length-1 hsep sequence with columns=3 is rejected. -/
theorem C6_sep_length_validation_witness :
    PanelSizeLocator.init 1 3 1 1 (SepArg.seq [1]) (SepArg.scalar 0) 0 0 0 0 mm =
      Except.error hsepLenMsg :=
  C6_sep_length_validation.1 1 3 1 1 [1] (SepArg.scalar 0) 0 0 0 0 mm (by decide)

/-- Shape of panel_size when hsep fails validation (with at least one
figure dimension supplied). -/
theorem panel_size_hsep_error (rows columns : ℕ) (figwidth figheight panelratio : Option ℚ)
    (hsep vsep : SepArg) (pl pr2 pt pb : ℚ) (e : String)
    (hne : ¬(figwidth = none ∧ figheight = none))
    (h1 : normalizeSep hsep columns hsepLenMsg = Except.error e) :
    panel_size rows columns figwidth figheight panelratio hsep vsep pl pr2 pt pb =
      ([], Except.error e) := by
  simp only [panel_size, if_neg hne, h1]

/-- Shape of panel_size when vsep fails validation (hsep having
passed, with at least one figure dimension supplied). -/
theorem panel_size_vsep_error (rows columns : ℕ) (figwidth figheight panelratio : Option ℚ)
    (hsep vsep : SepArg) (pl pr2 pt pb : ℚ) (hs : List ℚ) (e : String)
    (hne : ¬(figwidth = none ∧ figheight = none))
    (h1 : normalizeSep hsep columns hsepLenMsg = Except.ok hs)
    (h2 : normalizeSep vsep rows vsepLenMsg = Except.error e) :
    panel_size rows columns figwidth figheight panelratio hsep vsep pl pr2 pt pb =
      ([], Except.error e) := by
  simp only [panel_size, if_neg hne, h1, h2]

/-- Result component of panel_size in the both-dimensions branch. -/
theorem panel_size_both_snd (rows columns : ℕ) (fw fh : ℚ) (panelratio : Option ℚ)
    (hsep vsep : SepArg) (pl pr2 pt pb : ℚ) (hs vs : List ℚ)
    (h1 : normalizeSep hsep columns hsepLenMsg = Except.ok hs)
    (h2 : normalizeSep vsep rows vsepLenMsg = Except.ok vs) :
    (panel_size rows columns (some fw) (some fh) panelratio hsep vsep pl pr2 pt pb).2 =
      if (fw - hs.sum - pl - pr2) / (columns : ℚ) ≤ 0 ∨
          (fh - vs.sum - pt - pb) / (rows : ℚ) ≤ 0 then
        Except.error tooSmallMsg
      else
        Except.ok ((fw - hs.sum - pl - pr2) / (columns : ℚ),
          (fh - vs.sum - pt - pb) / (rows : ℚ)) := by
  have hne : ¬((some fw : Option ℚ) = none ∧ (some fh : Option ℚ) = none) := by simp
  simp only [panel_size, if_neg hne, h1, h2]
  split <;> rfl

/-- Warning component of panel_size in the both-dimensions branch with a
supplied panelratio. -/
theorem panel_size_both_warns (rows columns : ℕ) (fw fh r : ℚ)
    (hsep vsep : SepArg) (pl pr2 pt pb : ℚ) (hs vs : List ℚ)
    (h1 : normalizeSep hsep columns hsepLenMsg = Except.ok hs)
    (h2 : normalizeSep vsep rows vsepLenMsg = Except.ok vs) :
    (panel_size rows columns (some fw) (some fh) (some r) hsep vsep pl pr2 pt pb).1 =
      [ratioWarnMsg] := by
  have hne : ¬((some fw : Option ℚ) = none ∧ (some fh : Option ℚ) = none) := by simp
  simp only [panel_size, if_neg hne, h1, h2]
  split <;> rfl

/-- Shape of panel_size in the figwidth-only branch. -/
theorem panel_size_width_only (rows columns : ℕ) (fw : ℚ) (panelratio : Option ℚ)
    (hsep vsep : SepArg) (pl pr2 pt pb : ℚ) (hs vs : List ℚ)
    (h1 : normalizeSep hsep columns hsepLenMsg = Except.ok hs)
    (h2 : normalizeSep vsep rows vsepLenMsg = Except.ok vs) :
    panel_size rows columns (some fw) none panelratio hsep vsep pl pr2 pt pb =
      if (fw - hs.sum - pl - pr2) / (columns : ℚ) ≤ 0 then
        ([], Except.error notWideMsg)
      else
        ([], Except.ok ((fw - hs.sum - pl - pr2) / (columns : ℚ),
          (fw - hs.sum - pl - pr2) / (columns : ℚ) / ratioOr1 panelratio)) := by
  simp [panel_size, h1, h2]

/-- Shape of panel_size in the figheight-only branch. -/
theorem panel_size_height_only (rows columns : ℕ) (fh : ℚ) (panelratio : Option ℚ)
    (hsep vsep : SepArg) (pl pr2 pt pb : ℚ) (hs vs : List ℚ)
    (h1 : normalizeSep hsep columns hsepLenMsg = Except.ok hs)
    (h2 : normalizeSep vsep rows vsepLenMsg = Except.ok vs) :
    panel_size rows columns none (some fh) panelratio hsep vsep pl pr2 pt pb =
      if (fh - vs.sum - pt - pb) / (rows : ℚ) ≤ 0 then
        ([], Except.error notTallMsg)
      else
        ([], Except.ok ((fh - vs.sum - pt - pb) / (rows : ℚ) * ratioOr1 panelratio,
          (fh - vs.sum - pt - pb) / (rows : ℚ))) := by
  simp [panel_size, h1, h2]

/-- C8: when both figwidth and figheight are supplied, a supplied
panelratio never changes the outcome of panel_size — error or derived
(panelwidth, panelheight) are identical to the call with panelratio
absent — and when the separation arguments pass validation (so the
both-dimensions branch is reached) the call emits exactly the
panelratio-ignored warning as a non-fatal diagnostic. -/
theorem C8_panelratio_ignored_when_both (rows columns : ℕ) (fw fh r : ℚ)
    (hsep vsep : SepArg) (pl pr2 pt pb : ℚ) :
    (panel_size rows columns (some fw) (some fh) (some r) hsep vsep pl pr2 pt pb).2 =
      (panel_size rows columns (some fw) (some fh) none hsep vsep pl pr2 pt pb).2 ∧
    (∀ hs vs : List ℚ,
      normalizeSep hsep columns hsepLenMsg = Except.ok hs →
      normalizeSep vsep rows vsepLenMsg = Except.ok vs →
      (panel_size rows columns (some fw) (some fh) (some r) hsep vsep pl pr2 pt pb).1 =
        [ratioWarnMsg]) := by
  have hne : ¬((some fw : Option ℚ) = none ∧ (some fh : Option ℚ) = none) := by simp
  constructor
  · cases h1 : normalizeSep hsep columns hsepLenMsg with
    | error e =>
      rw [panel_size_hsep_error rows columns _ _ (some r) hsep vsep pl pr2 pt pb e hne h1,
        panel_size_hsep_error rows columns _ _ none hsep vsep pl pr2 pt pb e hne h1]
    | ok hs =>
      cases h2 : normalizeSep vsep rows vsepLenMsg with
      | error e =>
        rw [panel_size_vsep_error rows columns _ _ (some r) hsep vsep pl pr2 pt pb hs e hne h1 h2,
          panel_size_vsep_error rows columns _ _ none hsep vsep pl pr2 pt pb hs e hne h1 h2]
      | ok vs =>
        rw [panel_size_both_snd rows columns fw fh (some r) hsep vsep pl pr2 pt pb hs vs h1 h2,
          panel_size_both_snd rows columns fw fh none hsep vsep pl pr2 pt pb hs vs h1 h2]
  · intro hs vs h1 h2
    exact panel_size_both_warns rows columns fw fh r hsep vsep pl pr2 pt pb hs vs h1 h2

/-- Witness for C8: the sample both-dimension call with panelratio 7
warns and still derives (10, 20). -/
theorem C8_panelratio_ignored_when_both_witness :
    (panel_size 2 3 (some 42) (some 52) (some 7) (SepArg.scalar 1) (SepArg.scalar 2)
        5 5 5 5).2 =
      (panel_size 2 3 (some 42) (some 52) none (SepArg.scalar 1) (SepArg.scalar 2)
        5 5 5 5).2 ∧
    (panel_size 2 3 (some 42) (some 52) (some 7) (SepArg.scalar 1) (SepArg.scalar 2)
        5 5 5 5).1 = [ratioWarnMsg] :=
  ⟨(C8_panelratio_ignored_when_both 2 3 42 52 7 (SepArg.scalar 1) (SepArg.scalar 2)
      5 5 5 5).1,
   (C8_panelratio_ignored_when_both 2 3 42 52 7 (SepArg.scalar 1) (SepArg.scalar 2)
      5 5 5 5).2 [1, 1] [2] rfl rfl⟩

/-- C4 counterexample: in the both-dimensions branch the error message
does NOT distinguish width-insufficient from height-insufficient. A
call whose width alone is insufficient (figwidth=1, padleft=2,
figheight=100) and a call whose height alone is insufficient
(figheight=1, padtop=2, figwidth=100) both fail with the one combined
message, which is neither the width-specific nor the height-specific
message of the single-dimension branches. -/
theorem C4_counterexample_combined_message :
    (panel_size 1 1 (some 1) (some 100) none (SepArg.scalar 0) (SepArg.scalar 0)
        2 0 0 0).2 = Except.error tooSmallMsg ∧
    (panel_size 1 1 (some 100) (some 1) none (SepArg.scalar 0) (SepArg.scalar 0)
        0 0 2 0).2 = Except.error tooSmallMsg ∧
    tooSmallMsg ≠ notWideMsg ∧ tooSmallMsg ≠ notTallMsg := by
  refine ⟨?_, ?_, by decide, by decide⟩
  · rw [panel_size_both_snd 1 1 1 100 none (SepArg.scalar 0) (SepArg.scalar 0)
      2 0 0 0 [] [] rfl rfl]
    norm_num
  · rw [panel_size_both_snd 1 1 100 1 none (SepArg.scalar 0) (SepArg.scalar 0)
      0 0 2 0 [] [] rfl rfl]
    norm_num

/-- C4 (amended): in every branch of panel_size, a panel dimension
computed by division from a supplied figure dimension that is ≤ 0 makes
the call fail with a ValueError: the single-dimension branches use the
width-specific and height-specific messages (which are distinct), while
the both-dimensions branch uses a single combined message; a
FigureSizeLocator with figwidth=5, columns=3, padleft=padright=3 fails
with the width-insufficient message. -/
theorem C4_nonpositive_dimension_errors :
    (∀ (rows columns : ℕ) (fw fh : ℚ) (panelratio : Option ℚ) (hsep vsep : SepArg)
        (pl pr2 pt pb : ℚ) (hs vs : List ℚ),
      normalizeSep hsep columns hsepLenMsg = Except.ok hs →
      normalizeSep vsep rows vsepLenMsg = Except.ok vs →
      (fw - hs.sum - pl - pr2) / (columns : ℚ) ≤ 0 ∨
        (fh - vs.sum - pt - pb) / (rows : ℚ) ≤ 0 →
      (panel_size rows columns (some fw) (some fh) panelratio hsep vsep pl pr2 pt pb).2 =
        Except.error tooSmallMsg) ∧
    (∀ (rows columns : ℕ) (fh : ℚ) (panelratio : Option ℚ) (hsep vsep : SepArg)
        (pl pr2 pt pb : ℚ) (hs vs : List ℚ),
      normalizeSep hsep columns hsepLenMsg = Except.ok hs →
      normalizeSep vsep rows vsepLenMsg = Except.ok vs →
      (fh - vs.sum - pt - pb) / (rows : ℚ) ≤ 0 →
      (panel_size rows columns none (some fh) panelratio hsep vsep pl pr2 pt pb).2 =
        Except.error notTallMsg) ∧
    (∀ (rows columns : ℕ) (fw : ℚ) (panelratio : Option ℚ) (hsep vsep : SepArg)
        (pl pr2 pt pb : ℚ) (hs vs : List ℚ),
      normalizeSep hsep columns hsepLenMsg = Except.ok hs →
      normalizeSep vsep rows vsepLenMsg = Except.ok vs →
      (fw - hs.sum - pl - pr2) / (columns : ℚ) ≤ 0 →
      (panel_size rows columns (some fw) none panelratio hsep vsep pl pr2 pt pb).2 =
        Except.error notWideMsg) ∧
    notWideMsg ≠ notTallMsg ∧
    (FigureSizeLocator.init 1 3 (some 5) none none (SepArg.scalar 0) (SepArg.scalar 0)
        3 3 0 0 mm).2 = Except.error notWideMsg := by
  refine ⟨?_, ?_, ?_, by decide, ?_⟩
  · intro rows columns fw fh panelratio hsep vsep pl pr2 pt pb hs vs h1 h2 hle
    rw [panel_size_both_snd rows columns fw fh panelratio hsep vsep pl pr2 pt pb hs vs h1 h2,
      if_pos hle]
  · intro rows columns fh panelratio hsep vsep pl pr2 pt pb hs vs h1 h2 hle
    rw [panel_size_height_only rows columns fh panelratio hsep vsep pl pr2 pt pb hs vs h1 h2,
      if_pos hle]
  · intro rows columns fw panelratio hsep vsep pl pr2 pt pb hs vs h1 h2 hle
    rw [panel_size_width_only rows columns fw panelratio hsep vsep pl pr2 pt pb hs vs h1 h2,
      if_pos hle]
  · have hps := panel_size_width_only 1 3 5 none (SepArg.scalar 0) (SepArg.scalar 0)
      3 3 0 0 [0, 0] [] rfl rfl
    have hle : ((5 : ℚ) - ([0, 0] : List ℚ).sum - 3 - 3) / ((3 : ℕ) : ℚ) ≤ 0 := by norm_num
    rw [if_pos hle] at hps
    simp [FigureSizeLocator.init, hps]

/-- Witness for C4 (amended): a one-column figure of width 0 fails in
the width-only branch with the width-specific message. -/
theorem C4_nonpositive_dimension_errors_witness :
    (panel_size 1 1 (some 0) none none (SepArg.scalar 0) (SepArg.scalar 0)
        0 0 0 0).2 = Except.error notWideMsg :=
  C4_nonpositive_dimension_errors.2.2.1 1 1 0 none (SepArg.scalar 0) (SepArg.scalar 0)
    0 0 0 0 [] [] rfl rfl (by norm_num)

/-- C7: for a locator with positive panel dimensions, non-negative
separations and non-negative paddings, every rectangle returned by
panel_position at in-range indices lies within the unit square
[0,1]×[0,1] (x, y, width and height are non-negative and x+width and
y+height are at most 1), and for row 0 the rectangle's top edge
y + height equals 1 − padtop/figheight. -/
theorem C7_panel_in_unit_square (L : PanelSizeLocator)
    (hpw : 0 < L.panelwidth) (hph : 0 < L.panelheight)
    (hhs : ∀ s ∈ L.hsep, 0 ≤ s) (hvs : ∀ s ∈ L.vsep, 0 ≤ s)
    (hpl : 0 ≤ L.padleft) (hpr : 0 ≤ L.padright)
    (hpt : 0 ≤ L.padtop) (hpb : 0 ≤ L.padbottom)
    (row column : ℕ) (hrow : row < L.rows) (hcol : column < L.columns) :
    0 ≤ (L.panel_position row column).1 ∧
    (L.panel_position row column).1 + (L.panel_position row column).2.2.1 ≤ 1 ∧
    0 ≤ (L.panel_position row column).2.1 ∧
    (L.panel_position row column).2.1 + (L.panel_position row column).2.2.2 ≤ 1 ∧
    0 ≤ (L.panel_position row column).2.2.1 ∧
    0 ≤ (L.panel_position row column).2.2.2 ∧
    (row = 0 → (L.panel_position row column).2.1 + (L.panel_position row column).2.2.2 =
      1 - L.padtop / L.figheight) := by
  have hpp : L.panel_position row column =
      ((L.padleft + L.panelwidth * column + (L.hsep.take column).sum) / L.figwidth,
       (L.figheight - L.padtop - L.panelheight * (row + 1) - (L.vsep.take row).sum) / L.figheight,
       L.panelwidth / L.figwidth, L.panelheight / L.figheight) := rfl
  have hfweq : L.figwidth = L.padleft + L.columns * L.panelwidth + L.hsep.sum + L.padright := rfl
  have hfheq : L.figheight = L.padtop + L.rows * L.panelheight + L.vsep.sum + L.padbottom := rfl
  have hsum_hs : (0 : ℚ) ≤ L.hsep.sum := List.sum_nonneg hhs
  have hsum_vs : (0 : ℚ) ≤ L.vsep.sum := List.sum_nonneg hvs
  have htake_hs : (0 : ℚ) ≤ (L.hsep.take column).sum :=
    List.sum_nonneg fun s h => hhs s (List.take_subset _ _ h)
  have htake_vs : (0 : ℚ) ≤ (L.vsep.take row).sum :=
    List.sum_nonneg fun s h => hvs s (List.take_subset _ _ h)
  have hdrop_hs : (0 : ℚ) ≤ (L.hsep.drop column).sum :=
    List.sum_nonneg fun s h => hhs s (List.drop_subset _ _ h)
  have hdrop_vs : (0 : ℚ) ≤ (L.vsep.drop row).sum :=
    List.sum_nonneg fun s h => hvs s (List.drop_subset _ _ h)
  have htake_le_hs : (L.hsep.take column).sum ≤ L.hsep.sum := by
    conv_rhs => rw [← List.take_append_drop column L.hsep]
    rw [List.sum_append]; linarith
  have htake_le_vs : (L.vsep.take row).sum ≤ L.vsep.sum := by
    conv_rhs => rw [← List.take_append_drop row L.vsep]
    rw [List.sum_append]; linarith
  have hcolcast : ((column : ℚ) + 1) ≤ (L.columns : ℚ) := by exact_mod_cast hcol
  have hrowcast : ((row : ℚ) + 1) ≤ (L.rows : ℚ) := by exact_mod_cast hrow
  have hcolnn : (0 : ℚ) ≤ (column : ℚ) := Nat.cast_nonneg column
  have hrownn : (0 : ℚ) ≤ (row : ℚ) := Nat.cast_nonneg row
  have hpwcol : (0 : ℚ) ≤ L.panelwidth * (column : ℚ) := mul_nonneg hpw.le hcolnn
  have hphrow : (0 : ℚ) ≤ L.panelheight * (row : ℚ) := mul_nonneg hph.le hrownn
  have hmulcol : ((column : ℚ) + 1) * L.panelwidth ≤ (L.columns : ℚ) * L.panelwidth :=
    mul_le_mul_of_nonneg_right hcolcast hpw.le
  have hmulrow : ((row : ℚ) + 1) * L.panelheight ≤ (L.rows : ℚ) * L.panelheight :=
    mul_le_mul_of_nonneg_right hrowcast hph.le
  have hone_col : (1 : ℚ) * L.panelwidth ≤ (L.columns : ℚ) * L.panelwidth :=
    mul_le_mul_of_nonneg_right (by linarith) hpw.le
  have hone_row : (1 : ℚ) * L.panelheight ≤ (L.rows : ℚ) * L.panelheight :=
    mul_le_mul_of_nonneg_right (by linarith) hph.le
  have hfw : 0 < L.figwidth := by rw [hfweq]; linarith
  have hfh : 0 < L.figheight := by rw [hfheq]; linarith
  rw [hpp]
  dsimp only
  refine ⟨?_, ?_, ?_, ?_, ?_, ?_, ?_⟩
  · exact div_nonneg (by linarith) hfw.le
  · rw [div_add_div_same, div_le_one hfw, hfweq]
    have : L.panelwidth * (column : ℚ) + L.panelwidth = ((column : ℚ) + 1) * L.panelwidth := by
      ring
    linarith
  · refine div_nonneg ?_ hfh.le
    rw [hfheq]
    have hcomm : L.panelheight * ((row : ℚ) + 1) = ((row : ℚ) + 1) * L.panelheight := by ring
    linarith
  · rw [div_add_div_same, div_le_one hfh]
    have hexp : L.panelheight * ((row : ℚ) + 1) = L.panelheight * (row : ℚ) + L.panelheight := by
      ring
    linarith
  · exact div_nonneg hpw.le hfw.le
  · exact div_nonneg hph.le hfh.le
  · intro hr0
    subst hr0
    rw [div_add_div_same, List.take_zero, List.sum_nil]
    have hnum : L.figheight - L.padtop - L.panelheight * (((0 : ℕ) : ℚ) + 1) - 0 +
        L.panelheight = L.figheight - L.padtop := by push_cast; ring
    rw [hnum, sub_div, div_self hfh.ne']

/-- Witness for C7 at the sample locator, panel (0, 0). -/
theorem C7_panel_in_unit_square_witness :
    0 ≤ (sampleLocator.panel_position 0 0).1 ∧
    (sampleLocator.panel_position 0 0).1 + (sampleLocator.panel_position 0 0).2.2.1 ≤ 1 ∧
    0 ≤ (sampleLocator.panel_position 0 0).2.1 ∧
    (sampleLocator.panel_position 0 0).2.1 + (sampleLocator.panel_position 0 0).2.2.2 ≤ 1 ∧
    0 ≤ (sampleLocator.panel_position 0 0).2.2.1 ∧
    0 ≤ (sampleLocator.panel_position 0 0).2.2.2 ∧
    ((0 : ℕ) = 0 → (sampleLocator.panel_position 0 0).2.1 +
      (sampleLocator.panel_position 0 0).2.2.2 =
      1 - sampleLocator.padtop / sampleLocator.figheight) :=
  C7_panel_in_unit_square sampleLocator
    (by norm_num [sampleLocator]) (by norm_num [sampleLocator])
    (by intro s h; simp [sampleLocator] at h; norm_num [h])
    (by intro s h; simp [sampleLocator] at h; norm_num [h])
    (by norm_num [sampleLocator]) (by norm_num [sampleLocator])
    (by norm_num [sampleLocator]) (by norm_num [sampleLocator])
    0 0 (by decide) (by decide)

/-- C10: in the single-dimension branches, panelratio = 0 behaves
exactly as panelratio = 1 (Python's `panelratio or 1.` treats 0 as
falsy): the whole outcome, warnings included, coincides with the
panelratio = 1 call, and any successfully derived panel size is
square. -/
theorem C10_zero_panelratio_means_one (rows columns : ℕ) (fw fh : ℚ)
    (hsep vsep : SepArg) (pl pr2 pt pb : ℚ) :
    panel_size rows columns (some fw) none (some 0) hsep vsep pl pr2 pt pb =
      panel_size rows columns (some fw) none (some 1) hsep vsep pl pr2 pt pb ∧
    panel_size rows columns none (some fh) (some 0) hsep vsep pl pr2 pt pb =
      panel_size rows columns none (some fh) (some 1) hsep vsep pl pr2 pt pb ∧
    (∀ res : ℚ × ℚ,
      (panel_size rows columns (some fw) none (some 0) hsep vsep pl pr2 pt pb).2 =
        Except.ok res → res.1 = res.2) ∧
    (∀ res : ℚ × ℚ,
      (panel_size rows columns none (some fh) (some 0) hsep vsep pl pr2 pt pb).2 =
        Except.ok res → res.1 = res.2) := by
  have hr : ratioOr1 (some 0) = ratioOr1 (some 1) := by simp [ratioOr1]
  have hr1 : ratioOr1 (some 0) = 1 := by simp [ratioOr1]
  have hnw : ¬((some fw : Option ℚ) = none ∧ (none : Option ℚ) = none) := by simp
  have hnh : ¬((none : Option ℚ) = none ∧ (some fh : Option ℚ) = none) := by simp
  refine ⟨?_, ?_, ?_, ?_⟩
  · cases h1 : normalizeSep hsep columns hsepLenMsg with
    | error e =>
      rw [panel_size_hsep_error rows columns _ _ (some 0) hsep vsep pl pr2 pt pb e hnw h1,
        panel_size_hsep_error rows columns _ _ (some 1) hsep vsep pl pr2 pt pb e hnw h1]
    | ok hs =>
      cases h2 : normalizeSep vsep rows vsepLenMsg with
      | error e =>
        rw [panel_size_vsep_error rows columns _ _ (some 0) hsep vsep pl pr2 pt pb hs e hnw h1 h2,
          panel_size_vsep_error rows columns _ _ (some 1) hsep vsep pl pr2 pt pb hs e hnw h1 h2]
      | ok vs =>
        rw [panel_size_width_only rows columns fw (some 0) hsep vsep pl pr2 pt pb hs vs h1 h2,
          panel_size_width_only rows columns fw (some 1) hsep vsep pl pr2 pt pb hs vs h1 h2, hr]
  · cases h1 : normalizeSep hsep columns hsepLenMsg with
    | error e =>
      rw [panel_size_hsep_error rows columns _ _ (some 0) hsep vsep pl pr2 pt pb e hnh h1,
        panel_size_hsep_error rows columns _ _ (some 1) hsep vsep pl pr2 pt pb e hnh h1]
    | ok hs =>
      cases h2 : normalizeSep vsep rows vsepLenMsg with
      | error e =>
        rw [panel_size_vsep_error rows columns _ _ (some 0) hsep vsep pl pr2 pt pb hs e hnh h1 h2,
          panel_size_vsep_error rows columns _ _ (some 1) hsep vsep pl pr2 pt pb hs e hnh h1 h2]
      | ok vs =>
        rw [panel_size_height_only rows columns fh (some 0) hsep vsep pl pr2 pt pb hs vs h1 h2,
          panel_size_height_only rows columns fh (some 1) hsep vsep pl pr2 pt pb hs vs h1 h2, hr]
  · intro res h
    cases h1 : normalizeSep hsep columns hsepLenMsg with
    | error e =>
      rw [panel_size_hsep_error rows columns _ _ (some 0) hsep vsep pl pr2 pt pb e hnw h1] at h
      exact absurd h (by simp)
    | ok hs =>
      cases h2 : normalizeSep vsep rows vsepLenMsg with
      | error e =>
        rw [panel_size_vsep_error rows columns _ _ (some 0) hsep vsep pl pr2 pt pb
          hs e hnw h1 h2] at h
        exact absurd h (by simp)
      | ok vs =>
        rw [panel_size_width_only rows columns fw (some 0) hsep vsep pl pr2 pt pb
          hs vs h1 h2] at h
        by_cases hle : (fw - hs.sum - pl - pr2) / (columns : ℚ) ≤ 0
        · rw [if_pos hle] at h
          exact absurd h (by simp)
        · rw [if_neg hle] at h
          simp only [Except.ok.injEq] at h
          rw [← h, hr1]
          simp
  · intro res h
    cases h1 : normalizeSep hsep columns hsepLenMsg with
    | error e =>
      rw [panel_size_hsep_error rows columns _ _ (some 0) hsep vsep pl pr2 pt pb e hnh h1] at h
      exact absurd h (by simp)
    | ok hs =>
      cases h2 : normalizeSep vsep rows vsepLenMsg with
      | error e =>
        rw [panel_size_vsep_error rows columns _ _ (some 0) hsep vsep pl pr2 pt pb
          hs e hnh h1 h2] at h
        exact absurd h (by simp)
      | ok vs =>
        rw [panel_size_height_only rows columns fh (some 0) hsep vsep pl pr2 pt pb
          hs vs h1 h2] at h
        by_cases hle : (fh - vs.sum - pt - pb) / (rows : ℚ) ≤ 0
        · rw [if_pos hle] at h
          exact absurd h (by simp)
        · rw [if_neg hle] at h
          simp only [Except.ok.injEq] at h
          rw [← h, hr1]
          simp

/-- Witness for C10: figwidth 4 with one column and panelratio 0 yields
the square panel (4, 4). -/
theorem C10_zero_panelratio_means_one_witness :
    ((4 : ℚ), (4 : ℚ)).1 = ((4 : ℚ), (4 : ℚ)).2 :=
  (C10_zero_panelratio_means_one 1 1 4 0 (SepArg.scalar 0) (SepArg.scalar 0)
      0 0 0 0).2.2.1 (4, 4)
    (by
      rw [panel_size_width_only 1 1 4 (some 0) (SepArg.scalar 0) (SepArg.scalar 0)
        0 0 0 0 [] [] rfl rfl]
      norm_num [ratioOr1])

end Panels
